import Mathlib

/-!
Shallow embedding of the batch pipeline orchestrator in `src/pipeline.py`
(French audio → Spanish text / speech).

Strings model Python `str` and `pathlib.Path` values.  The filesystem is a
set of paths (a duplicate-free list); file contents are not tracked because
no orchestrator decision depends on them beyond emptiness of in-memory text.
External collaborators (Whisper, Argos translators, Coqui TTS, ffmpeg) are
opaque: their per-call results are supplied by oracle functions, and a
Python exception raised by a call is an `Except.error`.

Python string primitives (`strip`, `lower`, `join`, comparison, `in`) are
re-implemented by structural recursion over `List Char` so that every
definition evaluates inside the kernel; each mirrors the CPython semantics
on the ASCII data the pipeline handles.
-/

namespace AudioPipeline

/-- Exceptions of the embedded Python program.  `sysExit` is `SystemExit`
raised with a string argument; the others are ordinary `Exception`s. -/
inductive Exn where
  | sysExit (msg : String)
  | engineError (msg : String)
  | osError (msg : String)
  | valueError (msg : String)
deriving Repr, DecidableEq

/-! ## Python `str` primitives -/

/-- Characters removed by Python `str.strip()` (the ASCII whitespace set;
the inputs handled here are ASCII). -/
def isPySpace (c : Char) : Bool :=
  c = ' ' || c = '\t' || c = '\n' || c = '\r' || c = '\x0b' || c = '\x0c'

/-- Python `str.strip()`. -/
def pyStrip (s : String) : String :=
  String.mk (((s.data.dropWhile isPySpace).reverse.dropWhile isPySpace).reverse)

/-- Python `sep.join(parts)`. -/
def pyJoin (sep : String) : List String → String
  | [] => ""
  | [a] => a
  | a :: rest => a ++ sep ++ pyJoin sep rest

/-- Python `str.lower()` on one character (ASCII range). -/
def pyCharLower (c : Char) : Char :=
  if 'A' ≤ c && c ≤ 'Z' then Char.ofNat (c.toNat + 32) else c

/-- Python `str.lower()`. -/
def pyLower (s : String) : String := String.mk (s.data.map pyCharLower)

/-- Python string `x <= y` (lexicographic by code point). -/
def listCharLe : List Char → List Char → Bool
  | [], _ => true
  | _ :: _, [] => false
  | a :: as, b :: bs =>
    if a < b then true else if b < a then false else listCharLe as bs

/-- Does `pat` occur at the head of `l`? -/
def listStartsWith : List Char → List Char → Bool
  | [], _ => true
  | _ :: _, [] => false
  | p :: ps, c :: cs => p = c && listStartsWith ps cs

/-- Python `needle in hay` on strings (substring containment); the source's
`fmt in ("opus")` is this test on the string `"opus"`, not tuple membership. -/
def pyInStr (needle hay : String) : Bool :=
  (List.range (hay.data.length + 1)).any
    (fun i => listStartsWith needle.data (hay.data.drop i))

/-- Python `x in xs` for a collection of strings. -/
def listHas (l : List String) (x : String) : Bool := l.any (fun e => e = x)

/-! ## Python `pathlib` name arithmetic -/

/-- Split a character list at the LAST occurrence of `c`:
`splitLastC c s = some (b, t)` iff `s = b ++ c :: t` and `c ∉ t`. -/
def splitLastC (c : Char) : List Char → Option (List Char × List Char)
  | [] => none
  | a :: as =>
    match splitLastC c as with
    | some (b, t) => some (a :: b, t)
    | none => if a = c then some ([], as) else none

/-- Python `PurePath.suffix` on a file NAME: the part from the last dot on,
empty when the last dot is the first or the last character. -/
def pySuffixCore (s : List Char) : List Char :=
  match splitLastC '.' s with
  | some (b, t) => if b ≠ [] ∧ t ≠ [] then '.' :: t else []
  | none => []

/-- Python `PurePath.stem` on a file NAME: the name with its suffix removed. -/
def pyStemCore (s : List Char) : List Char :=
  match splitLastC '.' s with
  | some (b, t) => if b ≠ [] ∧ t ≠ [] then b else s
  | none => s

/-- Python `Path.suffix` of a path (the suffix of its final component). -/
def pySuffix (p : String) : String :=
  match splitLastC '/' p.data with
  | some (_, t) => String.mk (pySuffixCore t)
  | none => String.mk (pySuffixCore p.data)

/-- Final component of a path. -/
def pathName (p : String) : String :=
  match splitLastC '/' p.data with
  | some (_, t) => String.mk t
  | none => p

/-- Python `Path.stem` of a path. -/
def pathStem (p : String) : String := String.mk (pyStemCore (pathName p).data)

/-- Python `PurePath.with_suffix` on a file NAME: drop the old suffix
(if any) and append the new one. -/
def pyWithSuffixName (name suf : String) : String :=
  String.mk (pyStemCore name.data ++ suf.data)

/-- Python `Path.with_suffix`: `with_suffix` applied to the final component,
parent directory unchanged. -/
def pathWithSuffix (p suf : String) : String :=
  match splitLastC '/' p.data with
  | some (d, t) => String.mk d ++ "/" ++ pyWithSuffixName (String.mk t) suf
  | none => pyWithSuffixName p suf

/-! ## Filesystem model -/

/-- Paths currently present on disk. -/
abbrev FS := List String

def fsExists (fs : FS) (p : String) : Bool := fs.any (fun q => q = p)

/-- Create/overwrite the file at `p` (`write_text`, a succeeding rename
target, an ffmpeg output, a TTS output). -/
def fsWrite (fs : FS) (p : String) : FS := if fsExists fs p then fs else fs ++ [p]

/-- Remove the file at `p`. -/
def fsErase (fs : FS) (p : String) : FS := fs.filter (fun q => ¬ q = p)

/-! ## Input resolution (`SUPPORTED_EXTS`, `is_supported_audio`, `gather_inputs`) -/

def SUPPORTED_EXTS : List String :=
  [".wav", ".mp3", ".flac", ".m4a", ".ogg", ".oga", ".opus",
   ".aac", ".wma", ".mp4", ".mkv", ".webm"]

/-- One immediate entry of the input directory, as seen by `iterdir`. -/
structure DirEntry where
  name : String
  isFile : Bool
deriving Repr, DecidableEq

/-- What the filesystem holds at the input path (`is_file` / `is_dir` /
neither). -/
inductive InputNode where
  | file
  | dir (entries : List DirEntry)
  | absent

/-- Source: `p.is_file() and p.suffix.lower() in SUPPORTED_EXTS`. -/
def is_supported_audio (e : DirEntry) : Bool :=
  e.isFile && listHas SUPPORTED_EXTS (pyLower (String.mk (pySuffixCore e.name.data)))

/-- Ordering used by Python `sorted` on same-directory `Path` objects:
they compare by entry name. -/
def entryLe (a b : DirEntry) : Prop := listCharLe a.name.data b.name.data = true

instance : DecidableRel entryLe := fun a b =>
  inferInstanceAs (Decidable (listCharLe a.name.data b.name.data = true))

/-- Source: `gather_inputs`.  `sorted` is modelled by insertion sort, which
agrees with CPython's stable sort. -/
def gather_inputs (inputPath : String) (node : InputNode) : Except Exn (List String) :=
  match node with
  | .file =>
    if !(is_supported_audio ⟨pathName inputPath, true⟩) then
      .error (.sysExit ("Unsupported format: " ++ pySuffix inputPath))
    else .ok [inputPath]
  | .dir entries =>
    let files := (List.insertionSort entryLe (entries.filter is_supported_audio)).map
      (fun e => inputPath ++ "/" ++ e.name)
    if files = [] then .error (.sysExit ("No audio files found in " ++ inputPath))
    else .ok files
  | .absent => .error (.sysExit ("Input not found: " ++ inputPath))

/-! ## Translator provisioning (`ensure_argos_translators_via_english`) -/

/-- Source: look up `src`, `"en"`, `tgt` among the installed Argos language
codes; raise `SystemExit` listing the missing ones.  The returned translator
pair is opaque (it lives in `Engines` below), so the model returns `Unit`. -/
def ensure_argos_translators_via_english (installed : List String)
    (src_code tgt_code : String) : Except Exn Unit :=
  let get_lang := fun (code : String) => installed.find? (fun l => l = code)
  let src := get_lang src_code
  let en := get_lang "en"
  let tgt := get_lang tgt_code
  let missing := ([(src_code, src), ("en", en), (tgt_code, tgt)].filter
      (fun p => p.2.isNone)).map (fun p => p.1)
  if !missing.isEmpty then
    .error (.sysExit ("Missing Argos languages in the container: " ++
      pyJoin ", " missing))
  else .ok ()

/-! ## Engines and per-call oracles -/

/-- Opaque collaborator handles.  Each function gives the result of one
engine call; `Except.error` is a raised Python exception. -/
structure Engines where
  /-- `model.transcribe(path, language, beam_size, ...)`: segment texts. -/
  transcribeSegs : String → String → Nat → Except Exn (List String)
  /-- `fr_en.translate`. -/
  frEn : String → Except Exn String
  /-- `en_es.translate`. -/
  enEs : String → Except Exn String

/-- Outcomes of the filesystem-touching external calls, keyed by the paths
or command they are given. -/
structure FsOracle where
  /-- `tts_api.tts_to_file(text=..., file_path=p)`: raises or writes `p`. -/
  ttsToFileOk : String → Except Exn Unit
  /-- `tmp_wav.rename(final_path)` succeeds? (else the `except` branch
  copies and unlinks, with the same resulting path set). -/
  renameOk : String → String → Bool
  /-- `os.system(cmd)` exit status; `0` means `cmd` wrote its output file. -/
  ffmpegRc : String → Int
  /-- Does `unlink()` of this path raise? -/
  unlinkFails : String → Bool

/-- Source: `init_tts_or_none`; a failing TTS constructor is caught and
yields `None` (warn and continue). -/
def init_tts_or_none (enable_tts : Bool) (initOk : Bool) : Option Unit :=
  if !enable_tts then none
  else if initOk then some () else none

/-- Source: `transcribe_file`: join the stripped segment texts with single
spaces and strip the result. -/
def transcribe_file (eng : Engines) (path : String) (src_lang : String)
    (beam_size : Nat) : Except Exn String := do
  let segs ← eng.transcribeSegs path src_lang beam_size
  pure (pyStrip (pyJoin " " (segs.map pyStrip)))

/-- Source: `translate_text`: two-hop pivot fr→en then en→es. -/
def translate_text (fr_text : String) (eng : Engines) : Except Exn String := do
  let en_text ← eng.frEn fr_text
  let es_text ← eng.enEs en_text
  pure es_text

/-! ## Synthesis and re-encoding (`maybe_synthesize_tts`) -/

/-- Source: the ffmpeg command line built for a non-wav target format. -/
def ffmpeg_cmd (tmp_wav final_path fmt : String) : Except Exn String :=
  if fmt = "mp3" then
    .ok ("ffmpeg -y -i \"" ++ tmp_wav ++ "\" -vn -ar 44100 -b:a 160k \"" ++
      final_path ++ "\"")
  else if fmt = "ogg" then
    .ok ("ffmpeg -y -i \"" ++ tmp_wav ++ "\" -vn -ac 1 -ar 22050 -c:a libvorbis -qscale:a 5 \"" ++
      final_path ++ "\"")
  else if pyInStr fmt "opus" then
    .ok ("ffmpeg -y -i \"" ++ tmp_wav ++ "\" -vn -c:a libopus -b:a 96k \"" ++
      final_path ++ "\"")
  else if fmt = "m4a" then
    .ok ("ffmpeg -y -i \"" ++ tmp_wav ++ "\" -vn -c:a aac -b:a 160k \"" ++
      final_path ++ "\"")
  else .error (.valueError ("Unsupported audio format: " ++ fmt))

/-- Source: `maybe_synthesize_tts`.  Errors carry the filesystem state at
raise time (the disk persists when an exception propagates). -/
def maybe_synthesize_tts (tts_api : Option Unit) (orc : FsOracle) (text : String)
    (out_base : String) (fmt : String) (fs : FS) :
    Except (Exn × FS) (FS × Option String) :=
  match tts_api with
  | none => .ok (fs, none)
  | some _ =>
    if text = "" || pyStrip text = "" then .ok (fs, none)
    else
      let tmp_wav := pathWithSuffix out_base ".wav"
      match orc.ttsToFileOk tmp_wav with
      | .error e => .error (e, fs)
      | .ok _ =>
        let fs := fsWrite fs tmp_wav
        let final_path := pathWithSuffix out_base ("." ++ fmt)
        if fmt = "wav" then
          let fs :=
            if orc.renameOk tmp_wav final_path then
              fsWrite (fsErase fs tmp_wav) final_path
            else
              fsErase (fsWrite fs final_path) tmp_wav
          .ok (fs, some final_path)
        else
          match ffmpeg_cmd tmp_wav final_path fmt with
          | .error e => .error (e, fs)
          | .ok cmd =>
            let rc := orc.ffmpegRc cmd
            if rc ≠ 0 then .ok (fs, some tmp_wav)
            else
              let fs := fsWrite fs final_path
              let fs := fsErase fs tmp_wav
              .ok (fs, some final_path)

/-! ## The per-file loop body and the batch driver (`main`) -/

/-- Terminal state of one loop iteration: the two `continue` sites and the
fall-through to cleanup. -/
inductive Outcome where
  | noSpeech
  | emptyTranslation
  | completed (final_audio : Option String)
deriving Repr, DecidableEq

/-- Source: `Path(f"{out_pfx}/{stem}.fr.txt")` (braces shown as concat). -/
def out_fr_path (out_pfx stem : String) : String :=
  out_pfx ++ "/" ++ stem ++ ".fr.txt"

/-- Source: `Path(f"{out_pfx}/{stem}.es.txt")`. -/
def out_es_path (out_pfx stem : String) : String :=
  out_pfx ++ "/" ++ stem ++ ".es.txt"

/-- Source: `out_base = Path(f"{out_pfx}/{stem}.es")`. -/
def out_base_path (out_pfx stem : String) : String :=
  out_pfx ++ "/" ++ stem ++ ".es"

/-- The final audio path the synthesis step actually produces:
`out_base.with_suffix("." + fmt)`. -/
def final_audio_path (out_pfx stem fmt : String) : String :=
  pathWithSuffix (out_base_path out_pfx stem) ("." ++ fmt)

/-- Source: the single `try` block of lines 230-239: unlink `out_fr` if it
exists, then unlink `out_es` if it exists; ONE `except` catches either
failure, so a failure on `out_fr` skips the `out_es` removal. -/
def cleanup_txt (orc : FsOracle) (fs : FS) (out_fr out_es : String) : FS :=
  if fsExists fs out_fr then
    if orc.unlinkFails out_fr then fs
    else
      let fs2 := fsErase fs out_fr
      if fsExists fs2 out_es then
        if orc.unlinkFails out_es then fs2 else fsErase fs2 out_es
      else fs2
  else
    if fsExists fs out_es then
      if orc.unlinkFails out_es then fs else fsErase fs out_es
    else fs

/-- Per-run configuration relevant to the loop body. -/
structure Config where
  src : String
  beam_size : Nat
  audio_format : String
  out_pfx : String

/-- Source: the body of `for idx, f in enumerate(files, 1)` in `main`
(lines 192-239).  No `try` surrounds the transcription, translation or
synthesis calls, so their exceptions become `Except.error` of the whole
iteration. -/
def processFile (cfg : Config) (eng : Engines) (tts_api : Option Unit)
    (orc : FsOracle) (f : String) (fs : FS) : Except (Exn × FS) (FS × Outcome) :=
  match transcribe_file eng f cfg.src cfg.beam_size with
  | .error e => .error (e, fs)
  | .ok fr_text =>
    if fr_text = "" || pyStrip fr_text = "" then .ok (fs, .noSpeech)
    else
      let stem := pathStem f
      let out_fr := out_fr_path cfg.out_pfx stem
      let fs := fsWrite fs out_fr
      match translate_text fr_text eng with
      | .error e => .error (e, fs)
      | .ok es_text =>
        if es_text = "" || pyStrip es_text = "" then
          let fs :=
            if fsExists fs out_fr then
              if orc.unlinkFails out_fr then fs else fsErase fs out_fr
            else fs
          .ok (fs, .emptyTranslation)
        else
          let out_es := out_es_path cfg.out_pfx stem
          let fs := fsWrite fs out_es
          let next :=
            match tts_api with
            | some _ =>
              maybe_synthesize_tts tts_api orc es_text
                (out_base_path cfg.out_pfx stem) cfg.audio_format fs
            | none => .ok (fs, none)
          match next with
          | .error efs => .error efs
          | .ok (fs, final_audio) =>
            .ok (cleanup_txt orc fs out_fr out_es, .completed final_audio)

/-- The batch loop: process files in order; an uncaught exception aborts. -/
def runFiles (cfg : Config) (eng : Engines) (tts_api : Option Unit)
    (orc : FsOracle) : List String → FS → Except (Exn × FS) (FS × List Outcome)
  | [], fs => .ok (fs, [])
  | f :: rest, fs =>
    match processFile cfg eng tts_api orc f fs with
    | .error efs => .error efs
    | .ok (fs2, oc) =>
      match runFiles cfg eng tts_api orc rest fs2 with
      | .error efs => .error efs
      | .ok (fs3, ocs) => .ok (fs3, oc :: ocs)

/-- Parsed CLI arguments with `argparse` defaults. -/
structure Args where
  input : String
  src : String := "fr"
  tgt : String := "es"
  beam_size : Nat := 5
  no_tts : Bool := false
  audio_format : String := "wav"
  out_pfx : String := "/data/output/output"

/-- The external world a run encounters. -/
structure World where
  node : InputNode
  installed : List String
  ttsInitOk : Bool
  eng : Engines
  orc : FsOracle
  fs0 : FS

/-- Source: `main` — gather inputs, provision translators, load engines
(Whisper load modelled as succeeding: an opaque prerequisite), optional TTS,
then the batch loop. -/
def pymain (args : Args) (w : World) : Except (Exn × FS) (FS × List Outcome) :=
  match gather_inputs args.input w.node with
  | .error e => .error (e, w.fs0)
  | .ok files =>
    match ensure_argos_translators_via_english w.installed args.src args.tgt with
    | .error e => .error (e, w.fs0)
    | .ok _ =>
      let tts_api := init_tts_or_none (!args.no_tts) w.ttsInitOk
      runFiles ⟨args.src, args.beam_size, args.audio_format, args.out_pfx⟩
        w.eng tts_api w.orc files w.fs0

/-- CPython process exit status: `SystemExit` with a string argument prints
it and exits 1; any other uncaught exception prints a traceback and
exits 1; falling off `main` exits 0. -/
def exitStatus (r : Except (Exn × FS) (FS × List Outcome)) : Nat :=
  match r with
  | .ok _ => 0
  | .error _ => 1

/-- Exit status of a whole run. -/
def pymainExit (args : Args) (w : World) : Nat := exitStatus (pymain args w)


/-! ## Concrete engines, oracles and worlds used in the audits -/

/-- Engines that hear `"bonjour"` everywhere and translate it to `"hola"`. -/
def okEng : Engines :=
  { transcribeSegs := fun _ _ _ => .ok ["bonjour"]
    frEn := fun _ => .ok "hello"
    enEs := fun _ => .ok "hola" }

/-- Oracle where every external filesystem operation succeeds. -/
def okOrc : FsOracle :=
  { ttsToFileOk := fun _ => .ok ()
    renameOk := fun _ _ => true
    ffmpegRc := fun _ => 0
    unlinkFails := fun _ => false }

/-- Configuration produced by the default CLI flags. -/
def stdCfg : Config := ⟨"fr", 5, "wav", "/data/output/output"⟩

/-- Engines whose recognition call raises on the first batch file. -/
def c1Eng : Engines :=
  { transcribeSegs := fun p _ _ =>
      if p = "/data/input/a.wav" then .error (.engineError "asr crash")
      else .ok ["bonjour"]
    frEn := fun _ => .ok "hello"
    enEs := fun _ => .ok "hola" }

def c1Args : Args := { input := "/data/input" }

/-- A two-file batch whose first file makes the recognition engine raise. -/
def c1World : World :=
  { node := .dir [⟨"a.wav", true⟩, ⟨"b.wav", true⟩]
    installed := ["fr", "en", "es"]
    ttsInitOk := true
    eng := c1Eng
    orc := okOrc
    fs0 := [] }

/-- Oracle whose TTS call raises. -/
def c3Orc : FsOracle :=
  { ttsToFileOk := fun _ => .error (.engineError "tts crash")
    renameOk := fun _ _ => true
    ffmpegRc := fun _ => 0
    unlinkFails := fun _ => false }

def c3Args : Args := { input := "/data/input" }

/-- A one-file batch whose synthesis call raises. -/
def c3World : World :=
  { node := .dir [⟨"talk.mp3", true⟩]
    installed := ["fr", "en", "es"]
    ttsInitOk := true
    eng := okEng
    orc := c3Orc
    fs0 := [] }

def c4ArgsAbsent : Args := { input := "/data/input/missing.wav" }

/-- A run whose input path does not exist. -/
def c4WorldAbsent : World :=
  { node := .absent
    installed := ["fr", "en", "es"]
    ttsInitOk := true
    eng := okEng
    orc := okOrc
    fs0 := [] }

def c4ArgsNoLang : Args := { input := "/data/input/talk.wav" }

/-- A run with the French Argos language pack missing. -/
def c4WorldNoLang : World :=
  { node := .file
    installed := ["en", "es"]
    ttsInitOk := true
    eng := okEng
    orc := okOrc
    fs0 := [] }

def c4ArgsOk : Args := { input := "/data/input/talk.wav" }

/-- A fully successful one-file run. -/
def c4WorldOk : World :=
  { node := .file
    installed := ["fr", "en", "es"]
    ttsInitOk := true
    eng := okEng
    orc := okOrc
    fs0 := [] }

/-- Oracle where only unlinking the French transcript fails. -/
def c5Orc : FsOracle :=
  { ttsToFileOk := fun _ => .ok ()
    renameOk := fun _ _ => true
    ffmpegRc := fun _ => 0
    unlinkFails := fun p => p = "/data/output/output/talk.fr.txt" }

def c5Args : Args := { input := "/data/input/talk.mp3", no_tts := true }

/-- A one-file no-TTS run whose transcript unlink raises during cleanup. -/
def c5World : World :=
  { node := .file
    installed := ["fr", "en", "es"]
    ttsInitOk := true
    eng := okEng
    orc := c5Orc
    fs0 := [] }

/-- Engines whose two-hop translation comes back as whitespace. -/
def c6Eng : Engines :=
  { transcribeSegs := fun _ _ _ => .ok ["bonjour"]
    frEn := fun _ => .ok "hello"
    enEs := fun _ => .ok " " }

/-- Oracle whose TTS call would raise if it were ever invoked. -/
def c6Orc : FsOracle :=
  { ttsToFileOk := fun _ => .error (.engineError "tts must not be called")
    renameOk := fun _ _ => true
    ffmpegRc := fun _ => 0
    unlinkFails := fun _ => false }

/-- Oracle whose ffmpeg invocation exits with status 1. -/
def c7FailOrc : FsOracle :=
  { ttsToFileOk := fun _ => .ok ()
    renameOk := fun _ _ => true
    ffmpegRc := fun _ => 1
    unlinkFails := fun _ => false }

/-- Oracle where every external filesystem operation fails or raises. -/
def c10BadOrc : FsOracle :=
  { ttsToFileOk := fun _ => .error (.engineError "tts called")
    renameOk := fun _ _ => false
    ffmpegRc := fun _ => 1
    unlinkFails := fun _ => true }


/-! ## Helper lemmas about the filesystem model -/

theorem fsExists_iff {fs : FS} {p : String} : fsExists fs p = true ↔ p ∈ fs := by
  simp [fsExists]

theorem mem_fsWrite {fs : FS} {p q : String} : q ∈ fsWrite fs p ↔ q ∈ fs ∨ q = p := by
  unfold fsWrite
  split
  · rename_i h
    rw [fsExists_iff] at h
    constructor
    · exact Or.inl
    · rintro (hq | rfl) <;> [exact hq; exact h]
  · simp

theorem mem_fsErase {fs : FS} {p q : String} : q ∈ fsErase fs p ↔ q ∈ fs ∧ q ≠ p := by
  simp [fsErase, List.mem_filter]

theorem fsExists_fsWrite_self (fs : FS) (p : String) : fsExists (fsWrite fs p) p = true := by
  simp [fsExists_iff, mem_fsWrite]

theorem fsExists_fsWrite_of {fs : FS} {q : String} (p : String)
    (h : fsExists fs q = true) : fsExists (fsWrite fs p) q = true := by
  rw [fsExists_iff] at h ⊢
  exact mem_fsWrite.mpr (Or.inl h)

theorem fsExists_fsWrite_of_ne {fs : FS} {p q : String} (h : q ≠ p) :
    fsExists (fsWrite fs p) q = fsExists fs q := by
  cases hb : fsExists fs q with
  | true => exact fsExists_fsWrite_of p hb
  | false =>
    rw [← Bool.not_eq_true] at hb ⊢
    rw [fsExists_iff] at hb ⊢
    simp [mem_fsWrite, h, hb]

theorem fsExists_fsErase_self (fs : FS) (p : String) :
    fsExists (fsErase fs p) p = false := by
  rw [← Bool.not_eq_true, fsExists_iff, mem_fsErase]
  simp

theorem fsExists_fsErase_of_ne {fs : FS} {p q : String} (h : q ≠ p) :
    fsExists (fsErase fs p) q = fsExists fs q := by
  cases hb : fsExists fs q with
  | true =>
    rw [fsExists_iff] at hb ⊢
    exact mem_fsErase.mpr ⟨hb, h⟩
  | false =>
    rw [← Bool.not_eq_true] at hb ⊢
    rw [fsExists_iff] at hb ⊢
    simp [mem_fsErase, hb]

theorem fsErase_fsWrite_self {fs : FS} {p : String} (h : fsExists fs p = false) :
    fsErase (fsWrite fs p) p = fs := by
  have hp : p ∉ fs := by
    rw [← Bool.not_eq_true] at h; rwa [fsExists_iff] at h
  unfold fsWrite
  rw [if_neg (by simp [h])]
  unfold fsErase
  rw [List.filter_append]
  have h1 : List.filter (fun q => decide (¬ q = p)) fs = fs :=
    List.filter_eq_self.mpr (by
      intro a ha
      simp
      rintro rfl
      exact hp ha)
  have h2 : List.filter (fun q => decide (¬ q = p)) [p] = [] := by simp
  rw [h1, h2, List.append_nil]

/-! ## Helper lemmas about strings and paths -/

theorem str_data_inj {a b : String} (h : a.data = b.data) : a = b :=
  congrArg String.mk h

theorem strAppend_cancel_left {s a b : String} (h : s ++ a = s ++ b) : a = b := by
  have hd := congrArg String.data h
  rw [String.data_append, String.data_append] at hd
  exact str_data_inj (List.append_cancel_left hd)

theorem pathWithSuffix_suffix_inj {p a b : String}
    (h : pathWithSuffix p a = pathWithSuffix p b) : a = b := by
  unfold pathWithSuffix at h
  cases hs : splitLastC '/' p.data with
  | none =>
    rw [hs] at h
    unfold pyWithSuffixName at h
    have hd := congrArg String.data h
    simp only [String.data] at hd
    exact str_data_inj (List.append_cancel_left hd)
  | some dt =>
    rw [hs] at h
    unfold pyWithSuffixName at h
    have hd := congrArg String.data h
    simp only [String.data_append, String.data, List.append_assoc] at hd
    exact str_data_inj
      (List.append_cancel_left (List.append_cancel_left (List.append_cancel_left hd)))

theorem pathWithSuffix_suffix_ne {p a b : String} (h : a ≠ b) :
    pathWithSuffix p a ≠ pathWithSuffix p b :=
  fun hc => h (pathWithSuffix_suffix_inj hc)

theorem dot_fmt_ne_wav {fmt : String} (h : fmt ≠ "wav") :
    ("." ++ fmt : String) ≠ ".wav" := by
  intro hc
  have : ("." ++ fmt : String) = "." ++ "wav" := hc
  exact h (strAppend_cancel_left this)

/-! ## The directory ordering is total and transitive -/

theorem listCharLe_total : ∀ a b : List Char,
    listCharLe a b = true ∨ listCharLe b a = true
  | [], _ => Or.inl rfl
  | _ :: _, [] => Or.inr rfl
  | x :: xs, y :: ys => by
    rcases lt_trichotomy x y with h | h | h
    · left; simp [listCharLe, h]
    · subst h
      have := listCharLe_total xs ys
      rcases this with h2 | h2
      · left; simp [listCharLe, lt_irrefl, h2]
      · right; simp [listCharLe, lt_irrefl, h2]
    · right; simp [listCharLe, h]

theorem listCharLe_trans : ∀ a b c : List Char,
    listCharLe a b = true → listCharLe b c = true → listCharLe a c = true
  | [], _, _, _, _ => rfl
  | _ :: _, [], _, hab, _ => by simp [listCharLe] at hab
  | _ :: _, _ :: _, [], _, hbc => by simp [listCharLe] at hbc
  | x :: xs, y :: ys, z :: zs, hab, hbc => by
    simp only [listCharLe] at hab hbc ⊢
    rcases lt_trichotomy x y with hxy | hxy | hxy
    · rcases lt_trichotomy y z with hyz | hyz | hyz
      · simp [lt_trans hxy hyz]
      · subst hyz; simp [hxy]
      · rw [if_neg (asymm hyz), if_pos hyz] at hbc
        exact absurd hbc (by simp)
    · subst hxy
      rw [if_neg (lt_irrefl x), if_neg (lt_irrefl x)] at hab
      rcases lt_trichotomy x z with hxz | hxz | hxz
      · simp [hxz]
      · subst hxz
        rw [if_neg (lt_irrefl x), if_neg (lt_irrefl x)] at hbc ⊢
        exact listCharLe_trans _ _ _ hab hbc
      · rw [if_neg (asymm hxz), if_pos hxz] at hbc
        exact absurd hbc (by simp)
    · rw [if_neg (asymm hxy), if_pos hxy] at hab
      exact absurd hab (by simp)

instance : IsTotal DirEntry entryLe :=
  ⟨fun a b => listCharLe_total a.name.data b.name.data⟩

instance : IsTrans DirEntry entryLe :=
  ⟨fun _ _ _ hab hbc => listCharLe_trans _ _ _ hab hbc⟩


/-! ## Claim C1 -/

/-- C1 counterexample.  The claim says a collaborator exception on file N is
caught and logged, file N+1 is still processed, and the process exits 0.  In
`c1World` the recognition call raises on the first of two resolved files:
the exception propagates out of the loop (no per-file outcome is produced
for either file) and the process exit status is 1, not 0. -/
theorem C1_counterexample :
    pymain c1Args c1World = .error (.engineError "asr crash", []) ∧
    pymainExit c1Args c1World ≠ 0 :=
  ⟨by rfl, by decide⟩

/-- C1 (amended).  The per-file loop in `main` has no `try`/`except`: an
exception raised while processing file N (by the recognition, translation or
synthesis call) propagates, the remaining files are never processed, and the
process exits with status 1 (non-zero). -/
theorem C1_collaborator_exception_aborts_batch
    (cfg : Config) (eng : Engines) (tts_api : Option Unit) (orc : FsOracle)
    (f : String) (rest : List String) (fs : FS) (e : Exn) (fsE : FS)
    (h : processFile cfg eng tts_api orc f fs = .error (e, fsE)) :
    runFiles cfg eng tts_api orc (f :: rest) fs = .error (e, fsE) ∧
    exitStatus (runFiles cfg eng tts_api orc (f :: rest) fs) = 1 := by
  have hr : runFiles cfg eng tts_api orc (f :: rest) fs = .error (e, fsE) := by
    unfold runFiles
    rw [h]
  refine ⟨hr, ?_⟩
  rw [hr]
  rfl

/-- C1 witness: the amended theorem applied to the concrete aborting batch. -/
theorem C1_witness :
    runFiles stdCfg c1Eng (some ()) okOrc
      ["/data/input/a.wav", "/data/input/b.wav"] [] =
      .error (.engineError "asr crash", []) ∧
    exitStatus (runFiles stdCfg c1Eng (some ()) okOrc
      ["/data/input/a.wav", "/data/input/b.wav"] []) = 1 :=
  C1_collaborator_exception_aborts_batch stdCfg c1Eng (some ()) okOrc
    "/data/input/a.wav" ["/data/input/b.wav"] [] (.engineError "asr crash") []
    (by rfl)

/-! ## Claim C2 -/

/-- C2 (code bug).  The claim (and the module docstring) says the final speech
artifact for stem `talk` with format `wav` is `<out-prefix>/talk.es.wav`.  But
`out_base` is `<out-prefix>/talk.es` and `Path.with_suffix(".wav")` REPLACES
the `.es` suffix, so the code writes `<out-prefix>/talk.wav`; no `.es.wav`
file ever exists.  This run evaluates the full per-file pipeline on
`talk.mp3` with TTS enabled and non-empty translated text. -/
theorem C2_final_audio_path_drops_es_tag :
    processFile stdCfg okEng (some ()) okOrc "/data/input/talk.mp3" [] =
      .ok (["/data/output/output/talk.wav"],
        .completed (some "/data/output/output/talk.wav")) ∧
    final_audio_path "/data/output/output" "talk" "wav" =
      "/data/output/output/talk.wav" ∧
    final_audio_path "/data/output/output" "talk" "wav" ≠
      "/data/output/output/talk.es.wav" ∧
    fsExists ["/data/output/output/talk.wav"]
      "/data/output/output/talk.es.wav" = false :=
  ⟨by rfl, by rfl, by decide, by rfl⟩

/-! ## Claim C4 -/

/-- C4 counterexample.  The claim says fatal input-resolution errors make the
process exit with code 2.  `gather_inputs` raises `SystemExit` with a STRING
argument, and CPython exits with status 1 (printing the message), not 2:
on a non-existent input path the run terminates before any file is processed
with exit status 1. -/
theorem C4_counterexample :
    pymain c4ArgsAbsent c4WorldAbsent =
      .error (.sysExit "Input not found: /data/input/missing.wav", []) ∧
    pymainExit c4ArgsAbsent c4WorldAbsent = 1 ∧
    pymainExit c4ArgsAbsent c4WorldAbsent ≠ 2 :=
  ⟨by rfl, by rfl, by decide⟩

/-- C4 (amended).  A fatal input-resolution or provisioning error terminates
the run before any file is processed (the disk is untouched: the error state
is the initial `fs0`) with exit status 1, not 2; and any run in which
resolution, provisioning and the whole loop complete without an exception
exits 0, however many files were skipped. -/
theorem C4_fatal_exit_one_success_exit_zero :
    (∀ (args : Args) (w : World) (e : Exn),
      gather_inputs args.input w.node = .error e →
      pymain args w = .error (e, w.fs0) ∧ pymainExit args w = 1) ∧
    (∀ (args : Args) (w : World) (files : List String) (e : Exn),
      gather_inputs args.input w.node = .ok files →
      ensure_argos_translators_via_english w.installed args.src args.tgt = .error e →
      pymain args w = .error (e, w.fs0) ∧ pymainExit args w = 1) ∧
    (∀ (args : Args) (w : World) (r : FS × List Outcome),
      pymain args w = .ok r → pymainExit args w = 0) := by
  refine ⟨?_, ?_, ?_⟩
  · intro args w e h
    have hp : pymain args w = .error (e, w.fs0) := by
      unfold pymain; rw [h]
    exact ⟨hp, by unfold pymainExit; rw [hp]; rfl⟩
  · intro args w files e h1 h2
    have hp : pymain args w = .error (e, w.fs0) := by
      unfold pymain; rw [h1, h2]
    exact ⟨hp, by unfold pymainExit; rw [hp]; rfl⟩
  · intro args w r h
    unfold pymainExit; rw [h]; rfl

/-- C4 witness: the amended theorem applied to a missing input path, a
missing language pack, and a fully successful run. -/
theorem C4_witness :
    (pymain c4ArgsAbsent c4WorldAbsent =
      .error (.sysExit "Input not found: /data/input/missing.wav", []) ∧
      pymainExit c4ArgsAbsent c4WorldAbsent = 1) ∧
    (pymain c4ArgsNoLang c4WorldNoLang =
      .error (.sysExit "Missing Argos languages in the container: fr", []) ∧
      pymainExit c4ArgsNoLang c4WorldNoLang = 1) ∧
    pymainExit c4ArgsOk c4WorldOk = 0 :=
  ⟨C4_fatal_exit_one_success_exit_zero.1 c4ArgsAbsent c4WorldAbsent _ (by rfl),
   C4_fatal_exit_one_success_exit_zero.2.1 c4ArgsNoLang c4WorldNoLang
     ["/data/input/talk.wav"] _ (by rfl) (by rfl),
   C4_fatal_exit_one_success_exit_zero.2.2 c4ArgsOk c4WorldOk
     (["/data/output/output/talk.wav"],
       [.completed (some "/data/output/output/talk.wav")]) (by rfl)⟩

/-! ## Claim C9 -/

/-- C9.  Every derived output path (`<stem>.fr.txt`, `<stem>.es.txt`, the
synthesis base `<stem>.es` and the final audio path) is a function of the
output prefix and the input file's stem only; two input files with equal
stems therefore collide on all four paths, whatever their extensions or
directories. -/
theorem C9_output_paths_depend_only_on_stem
    (out_pfx fmt f1 f2 : String) (h : pathStem f1 = pathStem f2) :
    out_fr_path out_pfx (pathStem f1) = out_fr_path out_pfx (pathStem f2) ∧
    out_es_path out_pfx (pathStem f1) = out_es_path out_pfx (pathStem f2) ∧
    out_base_path out_pfx (pathStem f1) = out_base_path out_pfx (pathStem f2) ∧
    final_audio_path out_pfx (pathStem f1) fmt =
      final_audio_path out_pfx (pathStem f2) fmt := by
  rw [h]
  exact ⟨rfl, rfl, rfl, rfl⟩

/-- C9 witness: `talk.mp3` and `talk.wav` are distinct files with the same
stem, and all four derived output paths coincide. -/
theorem C9_witness :
    ("/data/input/talk.mp3" : String) ≠ "/data/input/talk.wav" ∧
    pathStem "/data/input/talk.mp3" = "talk" ∧
    pathStem "/data/input/talk.wav" = "talk" ∧
    (out_fr_path "/data/output/output" (pathStem "/data/input/talk.mp3") =
      out_fr_path "/data/output/output" (pathStem "/data/input/talk.wav") ∧
    out_es_path "/data/output/output" (pathStem "/data/input/talk.mp3") =
      out_es_path "/data/output/output" (pathStem "/data/input/talk.wav") ∧
    out_base_path "/data/output/output" (pathStem "/data/input/talk.mp3") =
      out_base_path "/data/output/output" (pathStem "/data/input/talk.wav") ∧
    final_audio_path "/data/output/output" (pathStem "/data/input/talk.mp3") "wav" =
      final_audio_path "/data/output/output" (pathStem "/data/input/talk.wav") "wav") :=
  ⟨by decide, by rfl, by rfl,
   C9_output_paths_depend_only_on_stem "/data/output/output" "wav"
     "/data/input/talk.mp3" "/data/input/talk.wav" (by rfl)⟩

/-! ## Claim C10 -/

/-- C10.  Inside `maybe_synthesize_tts` itself: when the engine handle is
`None`, or the text is empty or whitespace-only, the function returns `None`
with the filesystem unchanged — and since this holds for EVERY oracle,
including ones whose TTS call would raise and whose filesystem operations
all fail, no engine invocation and no write can have occurred. -/
theorem C10_synthesis_guard_blocks_engine_and_writes :
    (∀ (orc : FsOracle) (text out_base fmt : String) (fs : FS),
      maybe_synthesize_tts none orc text out_base fmt fs = .ok (fs, none)) ∧
    (∀ (orc : FsOracle) (text out_base fmt : String) (fs : FS),
      (text = "" || pyStrip text = "") = true →
      maybe_synthesize_tts (some ()) orc text out_base fmt fs = .ok (fs, none)) := by
  constructor
  · intro orc text out_base fmt fs
    rfl
  · intro orc text out_base fmt fs h
    unfold maybe_synthesize_tts
    rw [h]
    rfl

/-- C10 witness: the guard applied with the everything-fails oracle, for a
missing handle and for whitespace-only text. -/
theorem C10_witness :
    maybe_synthesize_tts none c10BadOrc "hola" "/data/output/output/talk.es"
      "wav" [] = .ok ([], none) ∧
    maybe_synthesize_tts (some ()) c10BadOrc "  " "/data/output/output/talk.es"
      "wav" [] = .ok ([], none) :=
  ⟨C10_synthesis_guard_blocks_engine_and_writes.1 c10BadOrc "hola"
     "/data/output/output/talk.es" "wav" [],
   C10_synthesis_guard_blocks_engine_and_writes.2 c10BadOrc "  "
     "/data/output/output/talk.es" "wav" [] (by rfl)⟩


/-! ## Claim C3 -/

/-- C3 counterexample.  The claim says a synthesis exception is logged, the
file ends in a `SynthesisFailed` outcome, and the batch continues.  In
`c3World` the TTS call raises on the batch's only file: no outcome is
produced at all, the exception aborts the run (exit status 1, not 0), and
the file's text outputs are left behind on disk because cleanup is never
reached. -/
theorem C3_counterexample :
    pymain c3Args c3World = .error (.engineError "tts crash",
      ["/data/output/output/talk.fr.txt", "/data/output/output/talk.es.txt"]) ∧
    pymainExit c3Args c3World ≠ 0 :=
  ⟨by rfl, by decide⟩

/-- C3 (amended).  `tts_api.tts_to_file` is called with no surrounding
`try`: a synthesis exception propagates out of `maybe_synthesize_tts` and
out of the per-file loop.  The file's transcript and translation text files
are still on disk at that point (cleanup is skipped), the remaining files
are never processed, and the process exits with status 1. -/
theorem C3_synthesis_exception_aborts_batch
    (cfg : Config) (eng : Engines) (orc : FsOracle) (f : String) (fs : FS)
    (fr_text es_text : String) (e : Exn)
    (h1 : transcribe_file eng f cfg.src cfg.beam_size = .ok fr_text)
    (h2 : (fr_text = "" || pyStrip fr_text = "") = false)
    (h3 : translate_text fr_text eng = .ok es_text)
    (h4 : (es_text = "" || pyStrip es_text = "") = false)
    (h5 : orc.ttsToFileOk
      (pathWithSuffix (out_base_path cfg.out_pfx (pathStem f)) ".wav") =
      .error e) :
    processFile cfg eng (some ()) orc f fs =
      .error (e, fsWrite (fsWrite fs (out_fr_path cfg.out_pfx (pathStem f)))
        (out_es_path cfg.out_pfx (pathStem f))) ∧
    fsExists (fsWrite (fsWrite fs (out_fr_path cfg.out_pfx (pathStem f)))
        (out_es_path cfg.out_pfx (pathStem f)))
      (out_fr_path cfg.out_pfx (pathStem f)) = true ∧
    fsExists (fsWrite (fsWrite fs (out_fr_path cfg.out_pfx (pathStem f)))
        (out_es_path cfg.out_pfx (pathStem f)))
      (out_es_path cfg.out_pfx (pathStem f)) = true ∧
    ∀ rest : List String,
      runFiles cfg eng (some ()) orc (f :: rest) fs =
        .error (e, fsWrite (fsWrite fs (out_fr_path cfg.out_pfx (pathStem f)))
          (out_es_path cfg.out_pfx (pathStem f))) ∧
      exitStatus (runFiles cfg eng (some ()) orc (f :: rest) fs) = 1 := by
  have hp : processFile cfg eng (some ()) orc f fs =
      .error (e, fsWrite (fsWrite fs (out_fr_path cfg.out_pfx (pathStem f)))
        (out_es_path cfg.out_pfx (pathStem f))) := by
    simp only [processFile, h1, h2, h3, h4, maybe_synthesize_tts, h5,
      Bool.false_eq_true, if_false]
  refine ⟨hp, ?_, fsExists_fsWrite_self _ _, ?_⟩
  · exact fsExists_fsWrite_of _ (fsExists_fsWrite_self _ _)
  · intro rest
    have hr : runFiles cfg eng (some ()) orc (f :: rest) fs =
        .error (e, fsWrite (fsWrite fs (out_fr_path cfg.out_pfx (pathStem f)))
          (out_es_path cfg.out_pfx (pathStem f))) := by
      unfold runFiles
      rw [hp]
    refine ⟨hr, ?_⟩
    rw [hr]
    rfl

/-- C3 witness: the amended theorem applied to the concrete one-file batch
whose TTS call raises. -/
theorem C3_witness :
    processFile stdCfg okEng (some ()) c3Orc "/data/input/talk.mp3" [] =
      .error (.engineError "tts crash",
        fsWrite (fsWrite [] (out_fr_path "/data/output/output" "talk"))
          (out_es_path "/data/output/output" "talk")) ∧
    runFiles stdCfg okEng (some ()) c3Orc ["/data/input/talk.mp3"] [] =
      .error (.engineError "tts crash",
        fsWrite (fsWrite [] (out_fr_path "/data/output/output" "talk"))
          (out_es_path "/data/output/output" "talk")) :=
  ⟨(C3_synthesis_exception_aborts_batch stdCfg okEng c3Orc "/data/input/talk.mp3"
      [] "bonjour" "hola" (.engineError "tts crash")
      (by rfl) (by rfl) (by rfl) (by rfl) (by rfl)).1,
   ((C3_synthesis_exception_aborts_batch stdCfg okEng c3Orc "/data/input/talk.mp3"
      [] "bonjour" "hola" (.engineError "tts crash")
      (by rfl) (by rfl) (by rfl) (by rfl) (by rfl)).2.2.2 []).1⟩

/-! ## Claim C6 -/

/-- C6.  When the two-hop translation comes back empty or whitespace-only,
the iteration ends in the `emptyTranslation` outcome with the filesystem
exactly as it started: the transcript that had been written is removed
again, no translation text file is ever created, and no audio is produced.
The theorem quantifies over EVERY oracle and TTS handle, so it also shows
synthesis is never invoked — an oracle whose TTS call raises still yields
this non-error result. -/
theorem C6_empty_translation_leaves_no_files
    (cfg : Config) (eng : Engines) (tts_api : Option Unit) (orc : FsOracle)
    (f : String) (fs : FS) (fr_text es_text : String)
    (h1 : transcribe_file eng f cfg.src cfg.beam_size = .ok fr_text)
    (h2 : (fr_text = "" || pyStrip fr_text = "") = false)
    (h3 : translate_text fr_text eng = .ok es_text)
    (h4 : (es_text = "" || pyStrip es_text = "") = true)
    (h5 : orc.unlinkFails (out_fr_path cfg.out_pfx (pathStem f)) = false)
    (h6 : fsExists fs (out_fr_path cfg.out_pfx (pathStem f)) = false) :
    processFile cfg eng tts_api orc f fs = .ok (fs, .emptyTranslation) := by
  simp only [processFile, h1, h2, h3, h4, fsExists_fsWrite_self, h5,
    fsErase_fsWrite_self h6, Bool.false_eq_true, if_false, if_true]

/-- C6 witness: the theorem applied to a concrete run whose translation is
`" "`, with an oracle whose TTS call would raise if reached. -/
theorem C6_witness :
    processFile stdCfg c6Eng (some ()) c6Orc "/data/input/talk.mp3" [] =
      .ok ([], .emptyTranslation) :=
  C6_empty_translation_leaves_no_files stdCfg c6Eng (some ()) c6Orc
    "/data/input/talk.mp3" [] "bonjour" " "
    (by rfl) (by rfl) (by rfl) (by rfl) (by rfl) (by rfl)

/-! ## Claim C7 -/

/-- C7.  For a re-encode to any non-wav format (any format for which an
ffmpeg command is built): if the conversion process exits non-zero, the
canonical waveform `tmp_wav` is kept on disk and returned as the deliverable
(no final-format file is created, the step does not raise); if it exits
zero, the re-encoded file is the deliverable and the canonical waveform is
deleted. -/
theorem C7_reencode_failure_keeps_wav_success_deletes_it
    (orc : FsOracle) (text out_base fmt cmd : String) (fs : FS)
    (htext : (text = "" || pyStrip text = "") = false)
    (hwav : fmt ≠ "wav")
    (hcmd : ffmpeg_cmd (pathWithSuffix out_base ".wav")
      (pathWithSuffix out_base ("." ++ fmt)) fmt = .ok cmd)
    (htts : orc.ttsToFileOk (pathWithSuffix out_base ".wav") = .ok ()) :
    (orc.ffmpegRc cmd ≠ 0 →
      maybe_synthesize_tts (some ()) orc text out_base fmt fs =
        .ok (fsWrite fs (pathWithSuffix out_base ".wav"),
          some (pathWithSuffix out_base ".wav")) ∧
      fsExists (fsWrite fs (pathWithSuffix out_base ".wav"))
        (pathWithSuffix out_base ".wav") = true ∧
      (fsExists fs (pathWithSuffix out_base ("." ++ fmt)) = false →
        fsExists (fsWrite fs (pathWithSuffix out_base ".wav"))
          (pathWithSuffix out_base ("." ++ fmt)) = false)) ∧
    (orc.ffmpegRc cmd = 0 →
      maybe_synthesize_tts (some ()) orc text out_base fmt fs =
        .ok (fsErase (fsWrite (fsWrite fs (pathWithSuffix out_base ".wav"))
            (pathWithSuffix out_base ("." ++ fmt)))
            (pathWithSuffix out_base ".wav"),
          some (pathWithSuffix out_base ("." ++ fmt))) ∧
      fsExists (fsErase (fsWrite (fsWrite fs (pathWithSuffix out_base ".wav"))
          (pathWithSuffix out_base ("." ++ fmt)))
          (pathWithSuffix out_base ".wav"))
        (pathWithSuffix out_base ".wav") = false ∧
      fsExists (fsErase (fsWrite (fsWrite fs (pathWithSuffix out_base ".wav"))
          (pathWithSuffix out_base ("." ++ fmt)))
          (pathWithSuffix out_base ".wav"))
        (pathWithSuffix out_base ("." ++ fmt)) = true) := by
  have hne : pathWithSuffix out_base ("." ++ fmt) ≠ pathWithSuffix out_base ".wav" :=
    pathWithSuffix_suffix_ne (dot_fmt_ne_wav hwav)
  constructor
  · intro hrc
    have hm : maybe_synthesize_tts (some ()) orc text out_base fmt fs =
        .ok (fsWrite fs (pathWithSuffix out_base ".wav"),
          some (pathWithSuffix out_base ".wav")) := by
      simp only [maybe_synthesize_tts, htext, htts, hcmd, Bool.false_eq_true,
        if_false]
      rw [if_neg hwav, if_pos hrc]
    refine ⟨hm, fsExists_fsWrite_self _ _, ?_⟩
    intro h0
    rw [fsExists_fsWrite_of_ne hne]
    exact h0
  · intro hrc
    have hm : maybe_synthesize_tts (some ()) orc text out_base fmt fs =
        .ok (fsErase (fsWrite (fsWrite fs (pathWithSuffix out_base ".wav"))
            (pathWithSuffix out_base ("." ++ fmt)))
            (pathWithSuffix out_base ".wav"),
          some (pathWithSuffix out_base ("." ++ fmt))) := by
      simp only [maybe_synthesize_tts, htext, htts, hcmd, Bool.false_eq_true,
        if_false]
      rw [if_neg hwav, if_neg (by simp [hrc])]
    refine ⟨hm, fsExists_fsErase_self _ _, ?_⟩
    rw [fsExists_fsErase_of_ne hne]
    exact fsExists_fsWrite_self _ _

/-- C7 witness: a failing mp3 re-encode keeps and returns `talk.wav`; a
succeeding one deletes it and returns `talk.mp3`. -/
theorem C7_witness :
    maybe_synthesize_tts (some ()) c7FailOrc "hola" "/data/output/output/talk.es"
      "mp3" [] = .ok (["/data/output/output/talk.wav"],
        some "/data/output/output/talk.wav") ∧
    maybe_synthesize_tts (some ()) okOrc "hola" "/data/output/output/talk.es"
      "mp3" [] = .ok (["/data/output/output/talk.mp3"],
        some "/data/output/output/talk.mp3") :=
  ⟨((C7_reencode_failure_keeps_wav_success_deletes_it c7FailOrc "hola"
      "/data/output/output/talk.es" "mp3"
      ("ffmpeg -y -i \"/data/output/output/talk.wav\" -vn -ar 44100 -b:a 160k \"/data/output/output/talk.mp3\"")
      [] (by rfl) (by decide) (by rfl) (by rfl)).1 (by decide)).1,
   ((C7_reencode_failure_keeps_wav_success_deletes_it okOrc "hola"
      "/data/output/output/talk.es" "mp3"
      ("ffmpeg -y -i \"/data/output/output/talk.wav\" -vn -ar 44100 -b:a 160k \"/data/output/output/talk.mp3\"")
      [] (by rfl) (by decide) (by rfl) (by rfl)).2 (by rfl)).1⟩


/-! ## Claim C5 -/

/-- C5 counterexample.  The claim says that when removing one intermediate
text file fails, removal of the other is still attempted.  In `c5World` the
transcript unlink raises while the translation unlink would succeed
(`unlinkFails` is false for it) — yet after the run BOTH text files are
still on disk: the single `try` block stopped at the first failure and the
translation removal was never attempted. -/
theorem C5_counterexample :
    pymain c5Args c5World =
      .ok (["/data/output/output/talk.fr.txt", "/data/output/output/talk.es.txt"],
        [.completed none]) ∧
    c5Orc.unlinkFails "/data/output/output/talk.es.txt" = false ∧
    fsExists ["/data/output/output/talk.fr.txt", "/data/output/output/talk.es.txt"]
      "/data/output/output/talk.es.txt" = true :=
  ⟨by rfl, by rfl, by rfl⟩

/-- C5 (amended).  Cleanup attempts the transcript removal first and the
translation removal second inside ONE protected block: (1) if the transcript
unlink raises, nothing is removed — the translation file is not even
attempted; (2) if neither unlink raises, both files are gone afterwards;
(3) whatever the unlink oracle does, the file still completes with an `ok`
outcome — a cleanup failure is never escalated and never fails the file. -/
theorem C5_cleanup_single_try_block :
    (∀ (orc : FsOracle) (fs : FS) (out_fr out_es : String),
      fsExists fs out_fr = true → orc.unlinkFails out_fr = true →
      cleanup_txt orc fs out_fr out_es = fs) ∧
    (∀ (orc : FsOracle) (fs : FS) (out_fr out_es : String),
      orc.unlinkFails out_fr = false → orc.unlinkFails out_es = false →
      fsExists (cleanup_txt orc fs out_fr out_es) out_fr = false ∧
      fsExists (cleanup_txt orc fs out_fr out_es) out_es = false) ∧
    (∀ (cfg : Config) (eng : Engines) (orc : FsOracle) (f : String) (fs : FS)
        (fr_text es_text : String),
      transcribe_file eng f cfg.src cfg.beam_size = .ok fr_text →
      (fr_text = "" || pyStrip fr_text = "") = false →
      translate_text fr_text eng = .ok es_text →
      (es_text = "" || pyStrip es_text = "") = false →
      processFile cfg eng none orc f fs =
        .ok (cleanup_txt orc
          (fsWrite (fsWrite fs (out_fr_path cfg.out_pfx (pathStem f)))
            (out_es_path cfg.out_pfx (pathStem f)))
          (out_fr_path cfg.out_pfx (pathStem f))
          (out_es_path cfg.out_pfx (pathStem f)), .completed none)) := by
  refine ⟨?_, ?_, ?_⟩
  · intro orc fs out_fr out_es h1 h2
    simp [cleanup_txt, h1, h2]
  · intro orc fs out_fr out_es h1 h2
    have hfr : ∀ fs2 : FS, fsExists fs2 out_fr = false →
        fsExists (if fsExists fs2 out_es = true then
          (if orc.unlinkFails out_es = true then fs2 else fsErase fs2 out_es)
          else fs2) out_fr = false := by
      intro fs2 hf
      split
      · rw [h2, if_neg (by simp)]
        rw [← Bool.not_eq_true] at hf ⊢
        rw [fsExists_iff] at hf ⊢
        rw [mem_fsErase]
        exact fun hc => hf hc.1
      · exact hf
    have hes : ∀ fs2 : FS,
        fsExists (if fsExists fs2 out_es = true then
          (if orc.unlinkFails out_es = true then fs2 else fsErase fs2 out_es)
          else fs2) out_es = false := by
      intro fs2
      cases hb : fsExists fs2 out_es with
      | true => simp [h2, fsExists_fsErase_self]
      | false => simpa using hb
    cases hb : fsExists fs out_fr with
    | true =>
      have hstep : cleanup_txt orc fs out_fr out_es =
          (if fsExists (fsErase fs out_fr) out_es = true then
            (if orc.unlinkFails out_es = true then fsErase fs out_fr
              else fsErase (fsErase fs out_fr) out_es)
            else fsErase fs out_fr) := by
        simp [cleanup_txt, hb, h1]
      rw [hstep]
      exact ⟨hfr (fsErase fs out_fr) (fsExists_fsErase_self fs out_fr),
        hes (fsErase fs out_fr)⟩
    | false =>
      have hstep : cleanup_txt orc fs out_fr out_es =
          (if fsExists fs out_es = true then
            (if orc.unlinkFails out_es = true then fs else fsErase fs out_es)
            else fs) := by
        simp [cleanup_txt, hb, h2]
      rw [hstep]
      exact ⟨hfr fs hb, hes fs⟩
  · intro cfg eng orc f fs fr_text es_text h1 h2 h3 h4
    simp only [processFile, h1, h2, h3, h4, Bool.false_eq_true, if_false]

/-- C5 witness: the amended theorem applied to the concrete cleanup states
of the counterexample run. -/
theorem C5_witness :
    cleanup_txt c5Orc
      ["/data/output/output/talk.fr.txt", "/data/output/output/talk.es.txt"]
      "/data/output/output/talk.fr.txt" "/data/output/output/talk.es.txt" =
      ["/data/output/output/talk.fr.txt", "/data/output/output/talk.es.txt"] ∧
    (fsExists (cleanup_txt okOrc
      ["/data/output/output/talk.fr.txt", "/data/output/output/talk.es.txt"]
      "/data/output/output/talk.fr.txt" "/data/output/output/talk.es.txt")
      "/data/output/output/talk.fr.txt" = false ∧
    fsExists (cleanup_txt okOrc
      ["/data/output/output/talk.fr.txt", "/data/output/output/talk.es.txt"]
      "/data/output/output/talk.fr.txt" "/data/output/output/talk.es.txt")
      "/data/output/output/talk.es.txt" = false) ∧
    processFile stdCfg okEng none c5Orc "/data/input/talk.mp3" [] =
      .ok (cleanup_txt c5Orc
        (fsWrite (fsWrite [] (out_fr_path "/data/output/output" "talk"))
          (out_es_path "/data/output/output" "talk"))
        (out_fr_path "/data/output/output" "talk")
        (out_es_path "/data/output/output" "talk"), .completed none) :=
  ⟨C5_cleanup_single_try_block.1 c5Orc
     ["/data/output/output/talk.fr.txt", "/data/output/output/talk.es.txt"]
     "/data/output/output/talk.fr.txt" "/data/output/output/talk.es.txt"
     (by rfl) (by rfl),
   C5_cleanup_single_try_block.2.1 okOrc
     ["/data/output/output/talk.fr.txt", "/data/output/output/talk.es.txt"]
     "/data/output/output/talk.fr.txt" "/data/output/output/talk.es.txt"
     (by rfl) (by rfl),
   C5_cleanup_single_try_block.2.2 stdCfg okEng c5Orc "/data/input/talk.mp3" []
     "bonjour" "hola" (by rfl) (by rfl) (by rfl) (by rfl)⟩

/-! ## Claim C8 -/

/-- C8.  Resolving an existing directory returns exactly the immediate
entries that are files with a supported extension (the `is_supported_audio`
filter, whose extension check lowercases the suffix before set membership),
in sorted-by-name order (a sorted permutation of the filtered entries), and
fails with the `No audio files found` `SystemExit` when the filtered set is
empty. -/
theorem C8_directory_resolution_sorted_filter
    (inputPath : String) (entries : List DirEntry) :
    (entries.filter is_supported_audio = [] →
      gather_inputs inputPath (.dir entries) =
        .error (.sysExit ("No audio files found in " ++ inputPath))) ∧
    (entries.filter is_supported_audio ≠ [] →
      ∃ kept : List DirEntry,
        gather_inputs inputPath (.dir entries) =
          .ok (kept.map (fun e => inputPath ++ "/" ++ e.name)) ∧
        kept.Perm (entries.filter is_supported_audio) ∧
        List.Sorted entryLe kept) := by
  constructor
  · intro h
    simp [gather_inputs, h]
  · intro h
    haveI : IsTotal DirEntry entryLe :=
      ⟨fun a b => listCharLe_total a.name.data b.name.data⟩
    haveI : IsTrans DirEntry entryLe :=
      ⟨fun _ _ _ hab hbc => listCharLe_trans _ _ _ hab hbc⟩
    refine ⟨List.insertionSort entryLe (entries.filter is_supported_audio),
      ?_, List.perm_insertionSort _ _, List.sorted_insertionSort _ _⟩
    have hne : (List.insertionSort entryLe (entries.filter is_supported_audio)).map
        (fun e => inputPath ++ "/" ++ e.name) ≠ [] := by
      intro hc
      rw [List.map_eq_nil_iff] at hc
      have := (List.perm_insertionSort entryLe
        (entries.filter is_supported_audio)).length_eq
      rw [hc] at this
      exact h (List.length_eq_zero.mp this.symm)
    simp only [gather_inputs, if_neg hne]

/-- C8 witness: a directory with no supported file errors; a directory with
`b.wav` and `a.mp3` resolves to the sorted kept entries. -/
theorem C8_witness :
    (gather_inputs "/data/input" (.dir [⟨"x.txt", true⟩]) =
      .error (.sysExit "No audio files found in /data/input")) ∧
    (∃ kept : List DirEntry,
      gather_inputs "/data/input" (.dir [⟨"b.wav", true⟩, ⟨"a.mp3", true⟩]) =
        .ok (kept.map (fun e => "/data/input" ++ "/" ++ e.name)) ∧
      kept.Perm (([⟨"b.wav", true⟩, ⟨"a.mp3", true⟩] : List DirEntry).filter
        is_supported_audio) ∧
      List.Sorted entryLe kept) :=
  ⟨(C8_directory_resolution_sorted_filter "/data/input" [⟨"x.txt", true⟩]).1
     (by rfl),
   (C8_directory_resolution_sorted_filter "/data/input"
     [⟨"b.wav", true⟩, ⟨"a.mp3", true⟩]).2 (by decide)⟩

end AudioPipeline
